import Mathlib

/-!
Verification development for the ollama desktop-app excerpt:
the release-update lifecycle (app/lifecycle/updater.go) and the Windows
tray event loop (app/tray/wintray/eventloop.go).

The Go functions are shallowly embedded: every external effect
(HTTP transport, filesystem stat and writes, process spawn, channel
readiness) is supplied as explicit environment data, and the effects a
call performs (HTTP GETs, spawn attempts, posted messages, channel
sends) are returned as explicit data, so each embedded function is a
total Lean function of its environment.
-/

namespace OllamaApp

/-! ## Data model: UpdateResponse and a JSON value model

`UpdateResponse` mirrors the Go struct in updater.go with json tags
"url" and "version".  JSON bodies are modelled as abstract JSON values;
a body that is not syntactically valid JSON is represented by `none`
at the use sites below. -/

structure UpdateResponse where
  UpdateURL : String
  UpdateVersion : String
deriving Repr, DecidableEq

/-- The zero value of the Go struct `UpdateResponse`. -/
def zeroUpdateResponse : UpdateResponse := ⟨"", ""⟩

/-- Abstract JSON values (no float payload needed: the decoder below
only inspects top-level kind and string fields). -/
inductive Json where
  | null : Json
  | bool (b : Bool) : Json
  | num (n : Int) : Json
  | str (s : String) : Json
  | arr (elems : List Json) : Json
  | obj (fields : List (String × Json)) : Json

/-- The struct field of `UpdateResponse` an object key decodes into,
or none.  `encoding/json` prefers an exact tag match and otherwise
matches field names case-insensitively; with the lowercase tags "url"
and "version" both rules coincide with ASCII case folding of the key
(Go also folds certain non-ASCII code points; no claim depends on
those). -/
inductive FieldTarget where
  | url : FieldTarget
  | version : FieldTarget
  | unknown : FieldTarget
deriving Repr, DecidableEq

/-- ASCII case folding of a field name, character by character. -/
def foldName (s : String) : String :=
  ⟨s.data.map Char.toLower⟩

/-- Field-name resolution for one JSON object key. -/
def fieldFor (k : String) : FieldTarget :=
  if foldName k = "url" then FieldTarget.url
  else if foldName k = "version" then FieldTarget.version
  else FieldTarget.unknown

/-- Decoding one JSON value into a `string` struct field holding `cur`:
a string sets the field, a JSON `null` leaves it unchanged, and any
other kind is a type error that leaves the field unchanged. -/
def decodeStringValue (v : Json) (cur : String) : Option Unit × String :=
  match v with
  | Json.str s => (none, s)
  | Json.null => (none, cur)
  | _ => (some (), cur)

/-- `encoding/json` reports the first error it saved. -/
def keepFirst (a b : Option Unit) : Option Unit :=
  match a with
  | some e => some e
  | none => b

/-- Sequential decoding of an object's keys into `UpdateResponse`, as
`encoding/json` performs it: keys are processed in order (so a later
duplicate overwrites an earlier one), an unknown key is skipped, and a
field type error is saved — first error wins — while decoding
continues, leaving every successfully decoded field set. -/
def unmarshalFields : List (String × Json) → Option Unit → UpdateResponse →
    Option Unit × UpdateResponse
  | [], err, acc => (err, acc)
  | (k, v) :: rest, err, acc =>
    match fieldFor k with
    | FieldTarget.url =>
      let r := decodeStringValue v acc.UpdateURL
      unmarshalFields rest (keepFirst err r.1) ⟨r.2, acc.UpdateVersion⟩
    | FieldTarget.version =>
      let r := decodeStringValue v acc.UpdateVersion
      unmarshalFields rest (keepFirst err r.1) ⟨acc.UpdateURL, r.2⟩
    | FieldTarget.unknown => unmarshalFields rest err acc

/-- Model of `json.Unmarshal(body, &updateResp)` for the two-string-field
struct `UpdateResponse`, returning the error (if any) together with the
variable as the call leaves it.  `Unmarshal` validates the input
syntactically before decoding, so a syntax error never touches the
variable (that case is `body = none` at the use site below); a
top-level `null` is a successful no-op; a top-level kind other than
object or null is a type error with the variable untouched; an object
is decoded key by key, recording the first field type error but
completing the rest of the decode, so the variable can be partially
filled when an error is returned. -/
def unmarshalUpdateResponse (j : Json) : Option Unit × UpdateResponse :=
  match j with
  | Json.null => (none, zeroUpdateResponse)
  | Json.obj fields => unmarshalFields fields none zeroUpdateResponse
  | _ => (some (), zeroUpdateResponse)

/-! ## IsNewReleaseAvailable (updater.go lines 37-62) -/

/-- One HTTP response as seen by `IsNewReleaseAvailable`.  `body = none`
covers every body whose bytes are not syntactically valid JSON —
`json.Unmarshal` rejects those before touching the variable — including
the case where `io.ReadAll` errors (the code only logs that error and
feeds the partial bytes to `json.Unmarshal`, which fails on them unless
they happen to be complete JSON, in which case `body = some j` models
it). -/
structure HttpResponse where
  statusCode : Nat
  body : Option Json

/-- Environment of one `IsNewReleaseAvailable` call: `response = none`
is a transport error returned by `http.Get`. -/
structure CheckEnv where
  response : Option HttpResponse

/-- Embedding of `IsNewReleaseAvailable`.  On an unmarshal error the Go
code returns `false, updateResp` — the variable exactly as
`json.Unmarshal` left it, which can be partially filled after a field
type error.  It is a total function, so the embedded code can never
panic or raise a fatal error: every branch, including all failure
branches, returns a pair. -/
def IsNewReleaseAvailable (env : CheckEnv) : Bool × UpdateResponse :=
  match env.response with
  | none => (false, zeroUpdateResponse)
  | some resp =>
    if resp.statusCode = 204 then
      (false, zeroUpdateResponse)
    else
      match resp.body with
      | none => (false, zeroUpdateResponse)
      | some j =>
        match unmarshalUpdateResponse j with
        | (some _, r) => (false, r)
        | (none, r) => (true, r)

/-! ## Claims C1 and C2 -/

/-- C1 counterexample: the status-200 body
`\x7b"url":"x","version":123\x7d` fails JSON unmarshalling (type error
on the "version" field) — an input the claim covers — yet the returned
`UpdateResponse` is not the zero value: `encoding/json` records the
field type error and keeps decoding, so the already-decoded "url" field
stays set and the code returns the partially filled variable. -/
theorem checkForUpdate_typeError_counterexample :
    IsNewReleaseAvailable ⟨some ⟨200,
        some (Json.obj [("url", Json.str "x"), ("version", Json.num 123)])⟩⟩
      = (false, ⟨"x", ""⟩)
    ∧ (⟨"x", ""⟩ : UpdateResponse) ≠ zeroUpdateResponse := by
  exact ⟨rfl, by decide⟩

/-- C1 amended: on a transport error, a 204 status, or a body that
fails JSON unmarshalling, `IsNewReleaseAvailable` returns
`available = false` and — being a total function of its environment —
never panics or raises a fatal error; the returned `UpdateResponse` is
the zero value on the transport-error, 204, and syntactically-invalid
body paths, while on a valid-JSON body whose unmarshalling fails with a
field type error it is the variable as `json.Unmarshal` left it,
possibly partially filled. -/
theorem checkForUpdate_failure_paths (env : CheckEnv) :
    (env.response = none →
        IsNewReleaseAvailable env = (false, zeroUpdateResponse))
      ∧ (∀ r, env.response = some r → r.statusCode = 204 →
        IsNewReleaseAvailable env = (false, zeroUpdateResponse))
      ∧ (∀ r, env.response = some r → r.body = none →
        IsNewReleaseAvailable env = (false, zeroUpdateResponse))
      ∧ (∀ r j e, env.response = some r → r.statusCode ≠ 204 →
        r.body = some j → (unmarshalUpdateResponse j).1 = some e →
        IsNewReleaseAvailable env = (false, (unmarshalUpdateResponse j).2)) := by
  refine ⟨fun h => ?_, fun r hr h204 => ?_, fun r hr hb => ?_,
    fun r j e hr h204 hb hum => ?_⟩
  · simp [IsNewReleaseAvailable, h]
  · simp [IsNewReleaseAvailable, hr, h204]
  · simp only [IsNewReleaseAvailable, hr, hb]
    by_cases h204 : r.statusCode = 204 <;> simp [h204]
  · simp only [IsNewReleaseAvailable, hr, hb, if_neg h204]
    match hu : unmarshalUpdateResponse j with
    | (some e₁, u) => simp [hu]
    | (none, u) => rw [hu] at hum; simp at hum

/-- Witness for the amended C1 at concrete inputs: a transport error
yields the zero value, and the type-error body
`\x7b"URL":123\x7d` (case-insensitive field match, then type error)
yields available = false with the variable as unmarshalling left it. -/
theorem checkForUpdate_failure_paths_witness :
    IsNewReleaseAvailable ⟨none⟩ = (false, zeroUpdateResponse)
      ∧ IsNewReleaseAvailable ⟨some ⟨200,
          some (Json.obj [("URL", Json.num 123)])⟩⟩
        = (false, (unmarshalUpdateResponse (Json.obj [("URL", Json.num 123)])).2) :=
  ⟨(checkForUpdate_failure_paths ⟨none⟩).1 rfl,
   (checkForUpdate_failure_paths ⟨some ⟨200, some (Json.obj [("URL", Json.num 123)])⟩⟩).2.2.2
     ⟨200, some (Json.obj [("URL", Json.num 123)])⟩
     (Json.obj [("URL", Json.num 123)]) () rfl (by decide) rfl rfl⟩

/-- C2 counterexample: a status-200 response whose body is the valid JSON
object `\x7b\x7d` (empty object) lacks the "url" and "version" fields, yet
`IsNewReleaseAvailable` returns `available = true` (the code accepts any
body that unmarshals, and never checks the status code beyond 204), not
`available = false` as the claim states. -/
theorem checkForUpdate_emptyObject_counterexample :
    IsNewReleaseAvailable ⟨some ⟨200, some (Json.obj [])⟩⟩
      = (true, zeroUpdateResponse) := rfl

/-- C2 amended: `IsNewReleaseAvailable` returns `available = true`
exactly when the GET succeeded, the status is not 204, and the body
unmarshals with no error — under the faithful unmarshal model with
case-insensitive field matching, first-error reporting across duplicate
keys, and partial fills — so fields may be absent, leaving zero values,
and non-204 status codes are not inspected; every other response yields
`available = false`. -/
theorem checkForUpdate_available_iff (env : CheckEnv) :
    (IsNewReleaseAvailable env).1 = true ↔
      ∃ r j, env.response = some r ∧ r.statusCode ≠ 204
        ∧ r.body = some j ∧ (unmarshalUpdateResponse j).1 = none := by
  constructor
  · intro h
    match henv : env.response with
    | none => simp [IsNewReleaseAvailable, henv] at h
    | some r =>
      by_cases h204 : r.statusCode = 204
      · simp [IsNewReleaseAvailable, henv, h204] at h
      · match hb : r.body with
        | none => simp [IsNewReleaseAvailable, henv, h204, hb] at h
        | some j =>
          match hum : unmarshalUpdateResponse j with
          | (some e, u) => simp [IsNewReleaseAvailable, henv, h204, hb, hum] at h
          | (none, u) => exact ⟨r, j, rfl, h204, hb, by rw [hum]⟩
  · rintro ⟨r, j, henv, h204, hb, hum⟩
    match hu : unmarshalUpdateResponse j with
    | (some e, u) => rw [hu] at hum; simp at hum
    | (none, u) => simp [IsNewReleaseAvailable, henv, h204, hb, hu]

/-- Witness for the amended C2 at a concrete input: a 200 response with
body `\x7b"url":"https://example.com/x","version":"9"\x7d`. -/
theorem checkForUpdate_available_iff_witness :
    (IsNewReleaseAvailable ⟨some ⟨200,
        some (Json.obj [("url", Json.str "https://example.com/x"),
                        ("version", Json.str "9")])⟩⟩).1 = true :=
  (checkForUpdate_available_iff _).mpr
    ⟨⟨200, some (Json.obj [("url", Json.str "https://example.com/x"),
                           ("version", Json.str "9")])⟩,
     Json.obj [("url", Json.str "https://example.com/x"),
               ("version", Json.str "9")],
     rfl, by decide, rfl, rfl⟩

/-! ## DownloadNewRelease (updater.go lines 64-104)

The filesystem and HTTP transport are explicit environment data.
`os.Stat` followed by `errors.Is(err, os.ErrNotExist)` distinguishes
three outcomes, modelled by `StatRes`. -/

/-- Outcome of one `os.Stat` call: success, a not-exist error, or any
other error. -/
inductive StatRes where
  | ok : StatRes
  | notExist : StatRes
  | otherErr : StatRes
deriving Repr, DecidableEq

/-- Modelled from the spec: the staging directory path.  The constant
`UpdateStageDir` is defined in a path-configuration file of the app
package that is not part of this excerpt; the spec only requires it to
be a fixed staging-directory path. -/
def UpdateStageDir : String := "/ollama/staging"

/-- One character of `url.PathEscape`: the path separator is
percent-encoded.  (Shallow model of the stdlib escaper; no claim here
depends on the escaping alphabet, only on the staged path being the
escape of the URL path joined under the staging directory.) -/
def escapeChar (c : Char) : String :=
  if c = '/' then "%2F" else String.singleton c

/-- Shallow model of `url.PathEscape`. -/
def pathEscape (s : String) : String :=
  String.join (s.toList.map escapeChar)

/-- `filepath.Join(UpdateStageDir, url.PathEscape(updateURL.Path))`. -/
def stagedPath (urlPath : String) : String :=
  UpdateStageDir ++ "/" ++ pathEscape urlPath

/-- Environment of one `DownloadNewRelease` call.  `parseURL` models
`url.Parse` (returning the parsed Path component, or `none` on a parse
error); `stat` gives the `os.Stat` outcome per path; the remaining
fields give the outcomes of `os.MkdirAll`, `http.Get`, `io.ReadAll`,
`os.OpenFile` and `fp.Write`. -/
structure DownloadEnv where
  parseURL : String → Option String
  stat : String → StatRes
  mkdirOk : Bool
  getOk : Bool
  readOk : Bool
  openOk : Bool
  writeOk : Bool

/-- Result of one `DownloadNewRelease` call: the returned error (if
any), the number of HTTP GET requests issued, and the value of the
process-wide `UpdateDownloaded` flag after the call. -/
structure DownloadResult where
  error : Option String
  httpGets : Nat
  flag : Bool
deriving Repr, DecidableEq

/-- The initial value of the process-wide variable
`UpdateDownloaded = false` (updater.go line 24). -/
def UpdateDownloadedInit : Bool := false

/-- Embedding of `DownloadNewRelease`, threading the `UpdateDownloaded`
flag explicitly.  Mirrors the source order: parse the URL, stat and
maybe create the staging directory (a non-not-exist stat error on the
directory is ignored), stat the staged file; download only on a
not-exist stat; any other stat error returns early; both remaining
paths fall through to `UpdateDownloaded = true; return nil`. -/
def DownloadNewRelease (env : DownloadEnv) (updateResp : UpdateResponse)
    (flag : Bool) : DownloadResult :=
  match env.parseURL updateResp.UpdateURL with
  | none =>
    ⟨some ("failed to parse update URL " ++ updateResp.UpdateURL), 0, flag⟩
  | some urlPath =>
    if env.stat UpdateStageDir = StatRes.notExist ∧ ¬env.mkdirOk then
      ⟨some ("create ollama dir " ++ UpdateStageDir), 0, flag⟩
    else
      match env.stat (stagedPath urlPath) with
      | StatRes.notExist =>
        if ¬env.getOk then
          ⟨some "error downloading update", 1, flag⟩
        else if ¬env.readOk then
          ⟨some "failed to read body response", 1, flag⟩
        else if ¬env.openOk then
          ⟨some ("write payload " ++ stagedPath urlPath), 1, flag⟩
        else if ¬env.writeOk then
          ⟨some ("write payload " ++ stagedPath urlPath ++ ": short write"), 1, flag⟩
        else
          ⟨none, 1, true⟩
      | StatRes.otherErr =>
        ⟨some "XXX unexpected stat error", 0, flag⟩
      | StatRes.ok =>
        ⟨none, 0, true⟩

/-! ## Claims C3 and C4 -/

/-- C3: when the escaped staging file already exists (the staging
directory and the staged file both stat as existing), `DownloadNewRelease`
returns no error and issues zero HTTP GET requests: existence of the
file is the sole dedup key. -/
theorem DownloadNewRelease_idempotent (env : DownloadEnv)
    (updateResp : UpdateResponse) (flag : Bool) (urlPath : String)
    (hparse : env.parseURL updateResp.UpdateURL = some urlPath)
    (hdir : env.stat UpdateStageDir = StatRes.ok)
    (hfile : env.stat (stagedPath urlPath) = StatRes.ok) :
    (DownloadNewRelease env updateResp flag).error = none
      ∧ (DownloadNewRelease env updateResp flag).httpGets = 0 := by
  simp [DownloadNewRelease, hparse, hdir, hfile]

/-- Witness for C3: a concrete environment in which the staged file for
url path "/v2/installer.exe" already exists. -/
theorem DownloadNewRelease_idempotent_witness :
    (DownloadNewRelease
        ⟨fun _ => some "/v2/installer.exe", fun _ => StatRes.ok,
          true, true, true, true, true⟩
        ⟨"https://example.com/v2/installer.exe", "2.0"⟩ false).error = none
      ∧ (DownloadNewRelease
        ⟨fun _ => some "/v2/installer.exe", fun _ => StatRes.ok,
          true, true, true, true, true⟩
        ⟨"https://example.com/v2/installer.exe", "2.0"⟩ false).httpGets = 0 :=
  DownloadNewRelease_idempotent _ _ _ "/v2/installer.exe" rfl rfl rfl

/-- C4: the process-wide `UpdateDownloaded` flag is false at process
start; after every `DownloadNewRelease` call that returns no error it is
true; and `DownloadNewRelease` — the only code in the program that
writes the flag — never transitions it from true back to false. -/
theorem UpdateDownloaded_lifecycle :
    UpdateDownloadedInit = false
      ∧ (∀ env updateResp flag,
          (DownloadNewRelease env updateResp flag).error = none →
          (DownloadNewRelease env updateResp flag).flag = true)
      ∧ (∀ env updateResp,
          (DownloadNewRelease env updateResp true).flag = true) := by
  refine ⟨rfl, ?_, ?_⟩
  · intro env updateResp flag h
    unfold DownloadNewRelease at h ⊢
    match hp : env.parseURL updateResp.UpdateURL with
    | none => simp [hp] at h
    | some urlPath =>
      simp only [hp] at h ⊢
      by_cases hmk : env.stat UpdateStageDir = StatRes.notExist ∧ ¬env.mkdirOk
      · simp [hmk] at h
      · simp only [if_neg hmk] at h ⊢
        match hf : env.stat (stagedPath urlPath) with
        | StatRes.notExist =>
          simp only [hf] at h ⊢
          by_cases hg : env.getOk
          · by_cases hr : env.readOk
            · by_cases ho : env.openOk
              · by_cases hw : env.writeOk
                · simp [hg, hr, ho, hw]
                · simp [hg, hr, ho, hw] at h
              · simp [hg, hr, ho] at h
            · simp [hg, hr] at h
          · simp [hg] at h
        | StatRes.otherErr => simp [hf] at h
        | StatRes.ok => simp [hf]
  · intro env updateResp
    unfold DownloadNewRelease
    match hp : env.parseURL updateResp.UpdateURL with
    | none => simp
    | some urlPath =>
      simp only
      by_cases hmk : env.stat UpdateStageDir = StatRes.notExist ∧ ¬env.mkdirOk
      · simp [hmk]
      · simp only [if_neg hmk]
        match hf : env.stat (stagedPath urlPath) with
        | StatRes.notExist =>
          by_cases hg : env.getOk
          · by_cases hr : env.readOk
            · by_cases ho : env.openOk
              · by_cases hw : env.writeOk
                · simp [hg, hr, ho, hw]
                · simp [hg, hr, ho, hw]
              · simp [hg, hr, ho]
            · simp [hg, hr]
          · simp [hg]
        | StatRes.otherErr => simp
        | StatRes.ok => simp

/-- Witness for C4 at a concrete input: a fully successful download sets
the flag, and a call starting with the flag true keeps it true. -/
theorem UpdateDownloaded_lifecycle_witness :
    (DownloadNewRelease
        ⟨fun _ => some "/v2/installer.exe", fun _ => StatRes.notExist,
          true, true, true, true, true⟩
        ⟨"https://example.com/v2/installer.exe", "2.0"⟩ false).flag = true
      ∧ (DownloadNewRelease
        ⟨fun _ => none, fun _ => StatRes.ok,
          true, true, true, true, true⟩
        ⟨"", ""⟩ true).flag = true :=
  ⟨UpdateDownloaded_lifecycle.2.1 _ _ _ rfl,
   UpdateDownloaded_lifecycle.2.2 _ _⟩

/-! ## StartBackgroundUpdaterChecker (updater.go lines 106-132)

The goroutine body is an infinite `for` whose iteration does
check, optionally download and notify, then a non-blocking
`select` on `ctx.Done()`: exit if done, else sleep and loop.  Each
iteration is embedded as a function of that iteration's external
outcomes, and a bounded run over a list of iteration environments
counts how many iterations execute. -/

/-- External outcomes of one scheduler iteration: what the check
returned, whether download and the notify callback errored, and whether
the cancellation context is done at the post-iteration check. -/
structure IterEnv where
  checkAvailable : Bool
  downloadError : Option String
  cbError : Option String
  ctxDone : Bool

/-- Observable steps of one scheduler iteration, in execution order. -/
inductive LoopEvent where
  | checked : LoopEvent
  | downloaded : LoopEvent
  | notified : LoopEvent
  | ctxChecked : LoopEvent
deriving Repr, DecidableEq

/-- One iteration of the `StartBackgroundUpdaterChecker` loop body: the
trace of steps it performs and whether the loop exits afterwards.
Download and callback errors are only logged (they appear in the trace
but do not influence the exit decision); the cancellation check is the
last step of the iteration, after any download. -/
def updaterLoopIter (env : IterEnv) : List LoopEvent × Bool :=
  ([LoopEvent.checked]
      ++ (if env.checkAvailable then [LoopEvent.downloaded, LoopEvent.notified] else [])
      ++ [LoopEvent.ctxChecked],
   env.ctxDone)

/-- A bounded run of the scheduler loop over a list of per-iteration
environments: the number of iterations executed before the loop exits
(or the supply of environments ends). -/
def updaterLoopRun : List IterEnv → Nat
  | [] => 0
  | env :: rest =>
    1 + (if (updaterLoopIter env).2 then 0 else updaterLoopRun rest)

/-! ## Claim C7 -/

/-- C7: a scheduler iteration exits the loop exactly when the
cancellation context is observed done — check, download, or notify
errors never terminate the loop — the cancellation check is the last
step of every iteration (never mid-download), and a run over iterations
none of which observes cancellation executes every iteration. -/
theorem updaterLoop_exit_only_on_cancel :
    (∀ env : IterEnv, (updaterLoopIter env).2 = true ↔ env.ctxDone = true)
      ∧ (∀ env : IterEnv,
          (updaterLoopIter env).1.getLast? = some LoopEvent.ctxChecked)
      ∧ (∀ envs : List IterEnv, (∀ env ∈ envs, env.ctxDone = false) →
          updaterLoopRun envs = envs.length) := by
  refine ⟨fun env => Iff.rfl, fun env => ?_, fun envs => ?_⟩
  · by_cases h : env.checkAvailable <;> simp [updaterLoopIter, h]
  · induction envs with
    | nil => intro _; rfl
    | cons env rest ih =>
      intro h
      have hd : env.ctxDone = false := h env (List.mem_cons_self env rest)
      have ih2 := ih (fun e he => h e (List.mem_cons_of_mem env he))
      simp only [updaterLoopRun, updaterLoopIter, hd, Bool.false_eq_true,
        if_false, List.length_cons, ih2]
      omega

/-- Witness for C7 at concrete inputs: an iteration with a failed
download and callback does not exit, and a two-iteration cancel-free run
executes both iterations. -/
theorem updaterLoop_exit_only_on_cancel_witness :
    (updaterLoopIter ⟨true, some "failed to download new release", some "cb failed", false⟩).2 = false
      ∧ updaterLoopRun
          [⟨true, some "failed to download new release", none, false⟩,
           ⟨false, none, none, false⟩] = 2 := by
  constructor
  · have h := updaterLoop_exit_only_on_cancel.1
      ⟨true, some "failed to download new release", some "cb failed", false⟩
    revert h
    decide
  · exact updaterLoop_exit_only_on_cancel.2.2 _ (by decide)

/-! ## DoUpgrade (updater.go lines 134-171)

The installer filename constant and the staging path come from the path
configuration; the spawn outcomes come from the environment.  `os.Exit`
is modelled as data: the exit status the call terminates the process
with, if any. -/

/-- Modelled from the spec: the fixed well-known installer filename
consumed by the installer launcher.  The constant `Installer` is defined
in a path-configuration file of the app package that is not part of
this excerpt. -/
def Installer : String := "OllamaSetup.exe"

/-- `filepath.Join(UpdateStageDir, Installer)`. -/
def installerExe : String := UpdateStageDir ++ "/" ++ Installer

/-- Environment of one `DoUpgrade` call: the `os.Stat` outcome on the
installer path, whether `cmd.Start()` succeeds, whether `cmd.Process`
is non-nil afterwards, and whether `cmd.Process.Release()` succeeds
(a release failure is only logged, so the result does not depend on
`releaseOk`). -/
structure UpgradeEnv where
  statInstaller : StatRes
  startOk : Bool
  procNonNil : Bool
  releaseOk : Bool

/-- Result of one `DoUpgrade` call: the returned error (if any), whether
`cmd.Start()` was invoked, whether `cmd.Process.Release()` was invoked,
and the `os.Exit` status if the call terminated the process. -/
structure UpgradeResult where
  error : Option String
  spawnAttempted : Bool
  releaseCalled : Bool
  exited : Option Nat
deriving Repr, DecidableEq

/-- Embedding of `DoUpgrade`: only a not-exist stat short-circuits with
the missing-installer error; otherwise the spawn is attempted.  A start
failure and a nil process handle each return an error without exiting;
on a confirmed start the handle is released (release errors only
logged) and the process exits with status 0. -/
def DoUpgrade (env : UpgradeEnv) : UpgradeResult :=
  if env.statInstaller = StatRes.notExist then
    ⟨some ("could not locate ollama installer at " ++ installerExe),
      false, false, none⟩
  else if ¬env.startOk then
    ⟨some "unable to start ollama app", true, false, none⟩
  else if env.procNonNil then
    ⟨none, true, true, some 0⟩
  else
    ⟨some "Installer process did not start", true, false, none⟩

/-! ## Claims C5, C6 and C10 -/

/-- C5: when the expected installer file is absent, `DoUpgrade` returns
a non-nil error whose message contains the expected installer path,
never attempts the process spawn, and does not exit the current
process. -/
theorem DoUpgrade_missing_installer (env : UpgradeEnv)
    (h : env.statInstaller = StatRes.notExist) :
    (∃ msg, (DoUpgrade env).error = some msg
        ∧ ∃ s t, msg = s ++ installerExe ++ t)
      ∧ (DoUpgrade env).spawnAttempted = false
      ∧ (DoUpgrade env).exited = none := by
  refine ⟨⟨"could not locate ollama installer at " ++ installerExe,
    ?_, "could not locate ollama installer at ", "", by simp⟩, ?_, ?_⟩
    <;> simp [DoUpgrade, h]

/-- Witness for C5 at the concrete not-exist environment. -/
theorem DoUpgrade_missing_installer_witness :
    (∃ msg, (DoUpgrade ⟨StatRes.notExist, true, true, true⟩).error = some msg
        ∧ ∃ s t, msg = s ++ installerExe ++ t)
      ∧ (DoUpgrade ⟨StatRes.notExist, true, true, true⟩).spawnAttempted = false
      ∧ (DoUpgrade ⟨StatRes.notExist, true, true, true⟩).exited = none :=
  DoUpgrade_missing_installer ⟨StatRes.notExist, true, true, true⟩ rfl

/-- C6: when the installer child process is confirmed started (start
succeeded and the process handle is non-nil), `DoUpgrade` releases the
handle and terminates the process with exit status 0, whatever the
release outcome; when the child fails to start, it returns a non-nil
error and does not exit the process. -/
theorem DoUpgrade_handoff (env : UpgradeEnv)
    (hpresent : env.statInstaller ≠ StatRes.notExist) :
    (env.startOk = true → env.procNonNil = true →
        (DoUpgrade env).releaseCalled = true
          ∧ (DoUpgrade env).exited = some 0
          ∧ (DoUpgrade env).error = none)
      ∧ (env.startOk = false →
        (DoUpgrade env).error ≠ none ∧ (DoUpgrade env).exited = none) := by
  constructor
  · intro hs hp
    simp [DoUpgrade, hpresent, hs, hp]
  · intro hs
    simp [DoUpgrade, hpresent, hs]

/-- Witness for C6: with the installer present, a confirmed start exits
with status 0 after releasing the handle, and a failed start returns an
error without exiting. -/
theorem DoUpgrade_handoff_witness :
    ((DoUpgrade ⟨StatRes.ok, true, true, true⟩).releaseCalled = true
        ∧ (DoUpgrade ⟨StatRes.ok, true, true, true⟩).exited = some 0
        ∧ (DoUpgrade ⟨StatRes.ok, true, true, true⟩).error = none)
      ∧ ((DoUpgrade ⟨StatRes.ok, false, true, true⟩).error ≠ none
        ∧ (DoUpgrade ⟨StatRes.ok, false, true, true⟩).exited = none) :=
  ⟨(DoUpgrade_handoff ⟨StatRes.ok, true, true, true⟩ (by decide)).1 rfl rfl,
   (DoUpgrade_handoff ⟨StatRes.ok, false, true, true⟩ (by decide)).2 rfl⟩

/-- C10: only a not-exist stat result short-circuits `DoUpgrade`; a stat
failure with any other error (for example permission denied) does not
return early — the spawn of the installer process is still attempted. -/
theorem DoUpgrade_stat_other_error (env : UpgradeEnv)
    (h : env.statInstaller = StatRes.otherErr) :
    (DoUpgrade env).spawnAttempted = true := by
  by_cases hs : env.startOk
  · by_cases hp : env.procNonNil <;> simp [DoUpgrade, h, hs, hp]
  · simp [DoUpgrade, h, hs]

/-- Witness for C10 at a concrete environment whose installer stat fails
with a non-not-exist error. -/
theorem DoUpgrade_stat_other_error_witness :
    (DoUpgrade ⟨StatRes.otherErr, true, true, true⟩).spawnAttempted = true :=
  DoUpgrade_stat_other_error ⟨StatRes.otherErr, true, true, true⟩ rfl

/-! ## Tray event loop: wndProc (eventloop.go lines 58-184)

Channel sends are modelled by the readiness of each receiver: a
non-blocking `select` send delivers one signal when a consumer is ready
and is dropped (only logged) otherwise.  Platform calls made by the
handler are recorded as an ordered event trace; the icon-descriptor
mutex appears as explicit lock and unlock events. -/

/-- Window message numbers, as in the constant block of `wndProc`. -/
def WM_RBUTTONUP : Nat := 0x0205

def WM_LBUTTONUP : Nat := 0x0202

def WM_COMMAND : Nat := 0x0111

def WM_ENDSESSION : Nat := 0x0016

def WM_CLOSE : Nat := 0x0010

def WM_DESTROY : Nat := 0x0002

def WM_MOUSEMOVE : Nat := 0x0200

def WM_LBUTTONDOWN : Nat := 0x0201

/-- Modelled from the spec: the four menu-item identifiers (defined in
the tray menu-construction file, not part of this excerpt); the spec
only requires four distinct identifiers for Quit, Update, ShowLogs and
GetStarted. -/
def QuitMenuID : Int := 1

/-- Modelled from the spec: see `QuitMenuID`. -/
def UpdateMenuID : Int := 2

/-- Modelled from the spec: see `QuitMenuID`. -/
def LogsMenuID : Int := 3

/-- Modelled from the spec: see `QuitMenuID`. -/
def GetStartedMenuID : Int := 4

/-- Readiness of the four callback channels: a channel is ready when the
embedder is currently blocked receiving on it. -/
structure Callbacks where
  quitReady : Bool
  updateReady : Bool
  logsReady : Bool
  firstUseReady : Bool

/-- Number of signals delivered on each of the four channels by one
`wndProc` invocation. -/
structure SentSignals where
  quit : Nat
  update : Nat
  showLogs : Nat
  doFirstUse : Nat
deriving Repr, DecidableEq

/-- No signal on any channel. -/
def noSignals : SentSignals := ⟨0, 0, 0, 0⟩

/-- A non-blocking channel send delivers one signal if a consumer is
ready, otherwise it is dropped (the handler only logs; it does not
crash or block). -/
def sendNonBlocking (ready : Bool) : Nat :=
  if ready then 1 else 0

/-- Platform calls a `wndProc` invocation performs, in order. -/
inductive TrayEvent where
  | destroyWindow : TrayEvent
  | unregisterClass : TrayEvent
  | lockNID : TrayEvent
  | deleteNID : TrayEvent
  | addNID : TrayEvent
  | unlockNID : TrayEvent
  | postQuit : TrayEvent
  | showMenu : TrayEvent
  | defWindowProc : TrayEvent
deriving Repr, DecidableEq

/-- The `winTray` state `wndProc` reads: channel readiness, whether the
notification-icon descriptor `nid` is non-nil, the pending-update flag,
and the two runtime-registered message numbers. -/
structure TrayState where
  callbacks : Callbacks
  nidPresent : Bool
  pendingUpdate : Bool
  wmSystrayMessage : Nat
  wmTaskbarCreated : Nat

/-- Output of one `wndProc` invocation: signals sent and the ordered
trace of platform calls. -/
structure WndProcOut where
  sent : SentSignals
  events : List TrayEvent

/-- The `WM_COMMAND` arm of `wndProc`: the inner switch on the menu-item
identifier.  Each known identifier performs one non-blocking send on its
channel; an unrecognized identifier is only logged. -/
def handleCommand (menuItemId : Int) (cb : Callbacks) : SentSignals :=
  if menuItemId = QuitMenuID then
    ⟨sendNonBlocking cb.quitReady, 0, 0, 0⟩
  else if menuItemId = UpdateMenuID then
    ⟨0, sendNonBlocking cb.updateReady, 0, 0⟩
  else if menuItemId = LogsMenuID then
    ⟨0, 0, sendNonBlocking cb.logsReady, 0⟩
  else if menuItemId = GetStartedMenuID then
    ⟨0, 0, 0, sendNonBlocking cb.firstUseReady⟩
  else
    noSignals

/-- The icon-descriptor cleanup shared by the destroy and end-session
arms: under the icon mutex, delete the descriptor when it is non-nil
(a delete failure is only logged). -/
def nidCleanup (nidPresent : Bool) : List TrayEvent :=
  [TrayEvent.lockNID]
    ++ (if nidPresent then [TrayEvent.deleteNID] else [])
    ++ [TrayEvent.unlockNID]

/-- Embedding of `wndProc`.  The arms appear in source order: command,
close, destroy (registers the deferred quit post, then falls through to
the end-session cleanup; the deferred call runs on return, after the
cleanup), end-session, the systray interaction message, the
taskbar-created message, and the default handler. -/
def wndProc (t : TrayState) (message : Nat) (wParam : Int) (lParam : Nat) :
    WndProcOut :=
  if message = WM_COMMAND then
    ⟨handleCommand wParam t.callbacks, []⟩
  else if message = WM_CLOSE then
    ⟨noSignals, [TrayEvent.destroyWindow, TrayEvent.unregisterClass]⟩
  else if message = WM_DESTROY then
    ⟨noSignals, nidCleanup t.nidPresent ++ [TrayEvent.postQuit]⟩
  else if message = WM_ENDSESSION then
    ⟨noSignals, nidCleanup t.nidPresent⟩
  else if message = t.wmSystrayMessage then
    if lParam = WM_MOUSEMOVE ∨ lParam = WM_LBUTTONDOWN then
      ⟨noSignals, []⟩
    else if lParam = WM_RBUTTONUP ∨ lParam = WM_LBUTTONUP then
      ⟨noSignals, [TrayEvent.showMenu]⟩
    else if lParam = 0x405 then
      if t.pendingUpdate then
        ⟨⟨0, sendNonBlocking t.callbacks.updateReady, 0, 0⟩, []⟩
      else
        ⟨⟨0, 0, 0, sendNonBlocking t.callbacks.firstUseReady⟩, []⟩
    else if lParam = 0x404 then
      ⟨noSignals, []⟩
    else
      ⟨noSignals, []⟩
  else if message = t.wmTaskbarCreated then
    ⟨noSignals, [TrayEvent.lockNID, TrayEvent.addNID, TrayEvent.unlockNID]⟩
  else
    ⟨noSignals, [TrayEvent.defWindowProc]⟩

/-! ## Claims C8 and C9 -/

/-- C8: for a menu-command (`WM_COMMAND`) message, each of the four
known menu-item identifiers delivers exactly one signal on its own
channel when that channel has a ready consumer and zero signals (with no
crash, only a log line) when it does not, with zero signals on every
other channel; every unrecognized identifier delivers no signal on any
channel. -/
theorem wndProc_command_dispatch (t : TrayState) :
    ((wndProc t WM_COMMAND QuitMenuID 0).sent
        = ⟨sendNonBlocking t.callbacks.quitReady, 0, 0, 0⟩)
      ∧ ((wndProc t WM_COMMAND UpdateMenuID 0).sent
        = ⟨0, sendNonBlocking t.callbacks.updateReady, 0, 0⟩)
      ∧ ((wndProc t WM_COMMAND LogsMenuID 0).sent
        = ⟨0, 0, sendNonBlocking t.callbacks.logsReady, 0⟩)
      ∧ ((wndProc t WM_COMMAND GetStartedMenuID 0).sent
        = ⟨0, 0, 0, sendNonBlocking t.callbacks.firstUseReady⟩)
      ∧ (∀ menuItemId : Int, menuItemId ≠ QuitMenuID →
          menuItemId ≠ UpdateMenuID → menuItemId ≠ LogsMenuID →
          menuItemId ≠ GetStartedMenuID →
          (wndProc t WM_COMMAND menuItemId 0).sent = noSignals) := by
  refine ⟨?_, ?_, ?_, ?_, fun menuItemId h1 h2 h3 h4 => ?_⟩
  · simp [wndProc, handleCommand]
  · simp [wndProc, handleCommand, UpdateMenuID, QuitMenuID]
  · simp [wndProc, handleCommand, LogsMenuID, QuitMenuID, UpdateMenuID]
  · simp [wndProc, handleCommand, GetStartedMenuID, QuitMenuID, UpdateMenuID,
      LogsMenuID]
  · simp [wndProc, handleCommand, h1, h2, h3, h4]

/-- Witness for C8 at a concrete state (every channel ready) and the
concrete unrecognized identifier 99. -/
theorem wndProc_command_dispatch_witness :
    ((wndProc ⟨⟨true, true, true, true⟩, true, false, 0x800, 0x801⟩
        WM_COMMAND QuitMenuID 0).sent = ⟨1, 0, 0, 0⟩)
      ∧ ((wndProc ⟨⟨true, true, true, true⟩, true, false, 0x800, 0x801⟩
        WM_COMMAND (99 : Int) 0).sent = noSignals) :=
  ⟨(wndProc_command_dispatch ⟨⟨true, true, true, true⟩, true, false, 0x800, 0x801⟩).1,
   (wndProc_command_dispatch ⟨⟨true, true, true, true⟩, true, false, 0x800, 0x801⟩).2.2.2.2
     99 (by decide) (by decide) (by decide) (by decide)⟩

/-- C9: a destroy message performs the icon-descriptor deletion under
the icon mutex and then posts the native quit signal (the deferred post
runs after the fallthrough cleanup); an end-session message performs
exactly the same cleanup and never posts the quit signal — the
fall-through goes only from destroy into the end-session cleanup. -/
theorem wndProc_destroy_endsession (t : TrayState) :
    ((wndProc t WM_DESTROY 0 0).events
        = nidCleanup t.nidPresent ++ [TrayEvent.postQuit])
      ∧ ((wndProc t WM_ENDSESSION 0 0).events = nidCleanup t.nidPresent)
      ∧ TrayEvent.postQuit ∉ (wndProc t WM_ENDSESSION 0 0).events
      ∧ (t.nidPresent = true →
          nidCleanup t.nidPresent
            = [TrayEvent.lockNID, TrayEvent.deleteNID, TrayEvent.unlockNID]) := by
  refine ⟨?_, ?_, ?_, fun h => ?_⟩
  · simp [wndProc, WM_DESTROY, WM_COMMAND, WM_CLOSE]
  · simp [wndProc, WM_ENDSESSION, WM_COMMAND, WM_CLOSE, WM_DESTROY]
  · have he : (wndProc t WM_ENDSESSION 0 0).events = nidCleanup t.nidPresent := by
      simp [wndProc, WM_ENDSESSION, WM_COMMAND, WM_CLOSE, WM_DESTROY]
    rw [he]
    by_cases h : t.nidPresent <;> simp [nidCleanup, h]
  · simp [nidCleanup, h]

/-- Witness for C9 at a concrete state with the icon descriptor
present. -/
theorem wndProc_destroy_endsession_witness :
    ((wndProc ⟨⟨true, true, true, true⟩, true, false, 0x800, 0x801⟩
        WM_DESTROY 0 0).events
      = [TrayEvent.lockNID, TrayEvent.deleteNID, TrayEvent.unlockNID,
         TrayEvent.postQuit]) := by
  have h := (wndProc_destroy_endsession
    ⟨⟨true, true, true, true⟩, true, false, 0x800, 0x801⟩).1
  rw [h]
  decide

end OllamaApp
